import Mathlib

/-!
Verification of the curveadm chunkfile-pool format workflow
(`internal/task/task/bs/format.go`) and the iSCSI target-registration
script (`scripts.TARGET`).

Pure Go functions are translated as Lean functions; the mutable
out-parameter wiring of the step pipeline is translated as explicit
state passing; remote command results are supplied by an oracle record.
Components of the repository that are outside the provided sources
(the `step`, `task`, `errno`, `utils` and `os` packages) are modelled
from the specification; each such definition carries a doc comment
saying so.
-/

namespace Curveadm

/-! ### String utilities (Go `strings.Contains` over char lists) -/

/-- Does the first list occur as a leading segment of the second? -/
def startsWithList : List Char → List Char → Bool
  | [], _ => true
  | _ :: _, [] => false
  | a :: as, b :: bs => a == b && startsWithList as bs

/-- Does `needle` occur as a contiguous sublist of the haystack? -/
def hasSubList (needle : List Char) : List Char → Bool
  | [] => needle.isEmpty
  | c :: cs => startsWithList needle (c :: cs) || hasSubList needle cs

/-- Embedding of Go `strings.Contains s pat`. -/
def strContains (s pat : String) : Bool :=
  hasSubList pat.toList s.toList

/-! ### Constants of `format.go` -/

def DEFAULT_CHUNKFILE_SIZE : Nat := 16 * 1024 * 1024

def WARNING_EDIT : String := "GENERATED BY CURVEADM, DONT EDIT THIS"

def SIGNATURE_NOT_A_BLOCK_DEVICE : String := "not a block device"

/-- Embedding of the Go regexp `REEGX_DEVICE_UUID = "^.{8}-.{4}-.{4}-.{4}-.{12}$"`:
the whole string is 35 characters long, the characters at positions
8, 13, 18 and 23 are dashes, and every other position holds one
arbitrary non-newline character (Go `.` does not match a newline). -/
def matchDeviceUUID (s : String) : Bool :=
  let cs := s.toList
  cs.length == 36 &&
  (List.range 36).all fun i =>
    if i == 8 || i == 13 || i == 18 || i == 23 then cs.getD i ' ' == '-'
    else cs.getD i ' ' != '\n'

/-! ### Error catalog -/

/-- Modelled from the spec: an error instance of the catalog carries a stable
kind and a message; the `errno` package itself is outside the sources. -/
structure Errno where
  kind : String
  msg : String
deriving DecidableEq

/-- Modelled from the spec: `F` substitutes contextual fields into the message
"via a formatting call that does not change the kind, only enriches the
message". The already-formatted context string is appended. -/
def Errno.F (e : Errno) (ctx : String) : Errno :=
  { kind := e.kind, msg := e.msg ++ ": " ++ ctx }

/-- Modelled from the spec: *device-not-block-device* error kind. -/
def ERR_NOT_A_BLOCK_DEVICE : Errno :=
  { kind := "ERR_NOT_A_BLOCK_DEVICE", msg := "device is not a block device" }

/-- Modelled from the spec: *device-metadata-invalid* error kind
(UUID missing or malformed). -/
def ERR_GET_DEVICE_UUID_FAILED : Errno :=
  { kind := "ERR_GET_DEVICE_UUID_FAILED", msg := "get device uuid failed" }

/-- Modelled from the spec: the sentinel error value `task.ERR_SKIP_TASK`
meaning "not a failure, just stop this task". -/
def ERR_SKIP_TASK : Errno :=
  { kind := "ERR_SKIP_TASK", msg := "skip task" }

/-! ### Lambdas of `format.go` -/

/-- Embedding of `skipFormat`: return the skip sentinel when the fetched
container id is non-empty. -/
def skipFormat (containerId : String) : Option Errno :=
  if containerId.length > 0 then some ERR_SKIP_TASK else none

/-- Embedding of `checkDeviceUUID` (the returned `Option Errno` is the Go
lambda's returned error, `none` meaning nil). -/
def checkDeviceUUID (host device : String) (success : Bool) (uuid : String) :
    Option Errno :=
  if !success then
    if strContains uuid SIGNATURE_NOT_A_BLOCK_DEVICE then
      some (ERR_NOT_A_BLOCK_DEVICE.F ("host=" ++ host ++ " device=" ++ device))
    else
      some (ERR_GET_DEVICE_UUID_FAILED.F
        ("host=" ++ host ++ " device=" ++ device ++ " uuid=" ++ uuid))
  else if matchDeviceUUID uuid then none
  else
    some (ERR_GET_DEVICE_UUID_FAILED.F
      ("host=" ++ host ++ " device=" ++ device ++ " uuid=" ++ uuid))

/-- Embedding of `step2EditFSTab.expression`: the sed deletion expression
for the old UUID. -/
def expressionDel (oldUUID : String) : String :=
  "/UUID=" ++ oldUUID ++ "/d"

/-- Embedding of `step2EditFSTab.expression`: the sed append expression
binding the new UUID to the mount point. -/
def expressionAdd (uuid mountPoint : String) : String :=
  "$ a UUID=" ++ uuid ++ "  " ++ mountPoint ++
    "  ext4  rw,errors=remount-ro  0  0  # " ++ WARNING_EDIT

/-! ### The host's files and the sed model -/

/-- Modelled from the spec: `os.GetFSTabPath()` (outside the sources); the
spec speaks of "a single fstab file". -/
def fstabPath : String := "/etc/fstab"

/-- The host state the fstab-edit composite touches: the fstab file as a
list of lines, and the backup files as (path, content) pairs. -/
structure HostFiles where
  fstab : List String
  backups : List (String × List String)
deriving DecidableEq

/-- Modelled from the spec: the `step.Sed` command applies one of the two
expression shapes produced by `step2EditFSTab.expression` in place:
`/PAT/d` deletes every line matching `PAT` (matching modelled as substring
containment, the patterns used carry no metacharacters), and `$ a LINE`
appends `LINE`. -/
def applySedExpression (expr : String) (lines : List String) : List String :=
  if expr.startsWith "/" && expr.endsWith "/d" then
    let pat := (expr.drop 1).dropRight 2
    lines.filter fun l => !(strContains l pat)
  else if expr.startsWith "$ a " then
    lines ++ [expr.drop 4]
  else lines

/-! ### The fstab-edit composite step (`step2EditFSTab`) -/

/-- Embedding of the `step2EditFSTab` struct fields (its `uuid` field is an
output slot written by the BlockId sub-step and is carried in `EditState`;
`oldUUID` is the dereferenced `*string`). -/
structure step2EditFSTab where
  host : String
  device : String
  mountPoint : String
  oldUUID : String
  skipAdd : Bool
deriving DecidableEq

/-- The sub-steps that `step2EditFSTab.execute` appends to its local list,
with their literal parameters. -/
inductive EditStep
  | copyFile (source dest : String) (noClobber : Bool)
  | blockId (device : String)
  | checkUUID
  | genExpression
  | sedDel
  | sedAdd
deriving DecidableEq

/-- The results of the remote commands the sub-pipeline issues, supplied
by the environment: each command step either fails with an error or
succeeds; the BlockId probe also yields its output string (which is the
probe's error text when the probe failed, e.g. a "not a block device"
message — the step stores whatever the remote command printed). -/
structure RemoteOracle where
  copyFileErr : Option Errno
  blockIdErr : Option Errno
  blockIdOut : String
  sedDelErr : Option Errno
  sedAddErr : Option Errno
deriving DecidableEq

/-- The in-pipeline mutable variables of `step2EditFSTab.execute`: the host
files, the `s.uuid` output slot, the local `success`, `express2del` and
`express2add` variables. -/
structure EditState where
  files : HostFiles
  uuid : String
  success : Bool
  express2del : String
  express2add : String
deriving DecidableEq

/-- One sub-step of the composite. `copyFile` is modelled from the spec
("copy file with no-clobber", "do not overwrite existing backup"): with
`NoClobber` set and the destination already present the copy is a no-op,
otherwise it stores the fstab content under the destination path.
`blockId` writes the probe's output into the `uuid` slot; nothing writes
the `success` flag, mirroring the source where no sub-step receives a
reference to it. -/
def execEditStep (s : step2EditFSTab) (o : RemoteOracle) :
    EditStep → EditState → EditState × Option Errno
  | .copyFile _ dest noClobber, st =>
      match o.copyFileErr with
      | some e => (st, some e)
      | none =>
          if noClobber && st.files.backups.any (fun b => b.1 == dest) then
            (st, none)
          else
            ({ st with files := { st.files with
                backups := (dest, st.files.fstab) :: st.files.backups } }, none)
  | .blockId _, st =>
      match o.blockIdErr with
      | some e => (st, some e)
      | none => ({ st with uuid := o.blockIdOut }, none)
  | .checkUUID, st =>
      (st, checkDeviceUUID s.host s.device st.success st.uuid)
  | .genExpression, st =>
      ({ st with
          express2del := expressionDel s.oldUUID,
          express2add := expressionAdd st.uuid s.mountPoint }, none)
  | .sedDel, st =>
      match o.sedDelErr with
      | some e => (st, some e)
      | none =>
          ({ st with files := { st.files with
              fstab := applySedExpression st.express2del st.files.fstab } }, none)
  | .sedAdd, st =>
      match o.sedAddErr with
      | some e => (st, some e)
      | none =>
          ({ st with files := { st.files with
              fstab := applySedExpression st.express2add st.files.fstab } }, none)

/-- The sub-step list built by `step2EditFSTab.execute`: backup fstab,
probe the device UUID, validate it, generate the records, then the two
conditional Sed steps. -/
def editSteps (s : step2EditFSTab) (now : String) : List EditStep :=
  [EditStep.copyFile fstabPath (fstabPath ++ "-" ++ now ++ ".backup") true,
   EditStep.blockId s.device,
   EditStep.checkUUID,
   EditStep.genExpression]
  ++ (if s.oldUUID.length > 0 then [EditStep.sedDel] else [])
  ++ (if !s.skipAdd then [EditStep.sedAdd] else [])

/-- Embedding of the `for _, step := range steps` loop of
`step2EditFSTab.execute`: run the sub-steps in order, returning on the
first error; also returns the list of sub-steps that were invoked. -/
def runEditSteps (s : step2EditFSTab) (o : RemoteOracle) :
    List EditStep → EditState → EditState × Option Errno × List EditStep
  | [], st => (st, none, [])
  | a :: rest, st =>
      let r := execEditStep s o a st
      match r.2 with
      | some e => (r.1, some e, [a])
      | none =>
          let rr := runEditSteps s o rest r.1
          (rr.1, rr.2.1, a :: rr.2.2)

/-- The initial variable values of `step2EditFSTab.execute`: `var success
bool` is false, the expression strings are empty; `uuid0` is the current
value of the `s.uuid` field. -/
def initEditState (files : HostFiles) (uuid0 : String) : EditState :=
  { files := files, uuid := uuid0, success := false,
    express2del := "", express2add := "" }

/-- Embedding of `step2EditFSTab.execute`. -/
def step2EditFSTab.execute (s : step2EditFSTab) (o : RemoteOracle)
    (now : String) (files : HostFiles) (uuid0 : String) :
    EditState × Option Errno × List EditStep :=
  runEditSteps s o (editSteps s now) (initEditState files uuid0)

/-- Events on the Shared Store's single lock. -/
inductive LockEvent
  | acquire
  | release
deriving DecidableEq

/-- Modelled from the spec: `MemStorage().TX(fn)` "executes fn while
holding the store's single mutual-exclusion lock ... it forwards fn's
error (or nil) unchanged"; the lock is acquired before `fn` runs and
released after it returns, error or not, which the event list records. -/
def TX {α : Type} (run : Unit → α × Option Errno) :
    (α × Option Errno) × List LockEvent :=
  (run (), [LockEvent.acquire, LockEvent.release])

/-- Embedding of `step2EditFSTab.Execute`: the whole sub-pipeline runs
inside one Shared Store transaction. -/
def step2EditFSTab.Execute (s : step2EditFSTab) (o : RemoteOracle)
    (now : String) (files : HostFiles) (uuid0 : String) :
    ((EditState × List EditStep) × Option Errno) × List LockEvent :=
  TX fun _ =>
    let r := step2EditFSTab.execute s o now files uuid0
    ((r.1, r.2.2), r.2.1)

/-! ### The format workflow builder (`NewFormatChunkfilePoolTask`) -/

/-- Modelled from the spec: the `configure.FormatConfig` accessors used by
the builder (host identifier, device path, mount point, usage percentage,
container image reference). -/
structure FormatConfig where
  host : String
  device : String
  mountPoint : String
  formatPercent : Nat
  containerImage : String
deriving DecidableEq

def FormatConfig.GetHost (fc : FormatConfig) : String := fc.host

def FormatConfig.GetDevice (fc : FormatConfig) : String := fc.device

def FormatConfig.GetMountPoint (fc : FormatConfig) : String := fc.mountPoint

def FormatConfig.GetFormatPercent (fc : FormatConfig) : Nat := fc.formatPercent

def FormatConfig.GetContainerImage (fc : FormatConfig) : String :=
  fc.containerImage

/-- Modelled from the spec: the host binding resolved by
`curveadm.GetHost` — "opaque connection/execution parameters resolved
from a host identifier by configuration lookup". -/
structure HostConfig where
  sshConfig : String
deriving DecidableEq

/-- Modelled from the spec: the layout constants supplied by
`topology.GetCurveBSProjectLayout()` — "filesystem paths on the target
host (tools directory, pool data directory, pool metadata path)". -/
structure Layout where
  ChunkfilePoolRootDir : String
  ChunkfilePoolDir : String
  ChunkfilePoolMetaPath : String
  ToolsBinDir : String
  FormatBinaryPath : String
deriving DecidableEq

/-- Embedding of `device2ContainerName`; `md5` stands for `utils.MD5Sum`
(outside the sources), an opaque content hash. -/
def device2ContainerName (md5 : String → String) (device : String) : String :=
  "curvebs-format-" ++ md5 device

/-- The steps `NewFormatChunkfilePoolTask` appends, with their literal
parameters. -/
inductive TaskStep
  | listContainers (showAll : Bool) (format : String) (quiet : Bool)
      (filter : String)
  | lambdaSkipFormat
  | blockId (device format matchTag : String)
  | umountFilesystem (dirs : List String) (ignoreUmounted ignoreNotFound : Bool)
  | createDirectory (paths : List String)
  | createFilesystem (device : String)
  | mountFilesystem (source dir : String)
  | editFSTab (host device mountPoint : String)
  | pullImage (image : String)
  | createContainer (image command entry name : String) (remove : Bool)
      (hostPath containerPath : String)
  | installFile (destPath : String)
  | startContainer
deriving DecidableEq

/-- The task record: name, subtitle, host binding and ordered steps. -/
structure Task where
  name : String
  subname : String
  sshConfig : String
  steps : List TaskStep
deriving DecidableEq

/-- Embedding of `NewFormatChunkfilePoolTask`: `hosts` stands for
`curveadm.GetHost` (configuration lookup, outside the sources). The
function performs the lookup, then assembles the task's steps in the
source's fixed order; it performs no remote operation. -/
def NewFormatChunkfilePoolTask (hosts : String → Except Errno HostConfig)
    (md5 : String → String) (layout : Layout) (fc : FormatConfig) :
    Except Errno Task :=
  match hosts fc.GetHost with
  | .error e => .error e
  | .ok hc =>
      let device := fc.GetDevice
      let mountPoint := fc.GetMountPoint
      let usagePercent := fc.GetFormatPercent
      let subname := "host=" ++ fc.GetHost ++ " device=" ++ device ++
        " mountPoint=" ++ mountPoint ++ " usage=" ++ toString usagePercent ++ "%"
      let containerName := device2ContainerName md5 device
      let formatScriptPath := layout.ToolsBinDir ++ "/format.sh"
      let formatCommand := formatScriptPath ++ " " ++ layout.FormatBinaryPath ++
        " " ++ toString usagePercent ++ " " ++ toString DEFAULT_CHUNKFILE_SIZE ++
        " " ++ layout.ChunkfilePoolDir ++ " " ++ layout.ChunkfilePoolMetaPath
      .ok
        { name := "Start Format Chunkfile Pool"
          subname := subname
          sshConfig := hc.sshConfig
          steps :=
            [TaskStep.listContainers true "'\x7b\x7b.ID\x7d\x7d'" true
               ("name=" ++ containerName),
             TaskStep.lambdaSkipFormat,
             TaskStep.blockId device "value" "UUID",
             TaskStep.umountFilesystem [device] true true,
             TaskStep.createDirectory [mountPoint],
             TaskStep.createFilesystem device,
             TaskStep.mountFilesystem device mountPoint,
             TaskStep.editFSTab fc.GetHost device mountPoint,
             TaskStep.pullImage fc.GetContainerImage,
             TaskStep.createContainer fc.GetContainerImage formatCommand
               "/bin/bash" containerName true mountPoint
               layout.ChunkfilePoolRootDir,
             TaskStep.installFile formatScriptPath,
             TaskStep.startContainer] }

/-! ### The task engine (spec §4.1, outside the sources) -/

/-- Modelled from the spec: the terminal outcome of a task —
succeeded, skipped, or failed with a typed error. -/
inductive Outcome
  | success
  | skipped
  | failed (e : Errno)
deriving DecidableEq

/-- The output slots the format task's steps write
(`oldContainerId`, `oldUUID`, `containerId`). -/
structure TaskEnv where
  oldContainerId : String
  oldUUID : String
  containerId : String
deriving DecidableEq

/-- The remote results of the format task's command steps, supplied by
the environment. -/
structure TaskOracle where
  listContainersErr : Option Errno
  listContainersOut : String
  blockIdErr : Option Errno
  blockIdOut : String
  umountErr : Option Errno
  mkdirErr : Option Errno
  mkfsErr : Option Errno
  mountErr : Option Errno
  editErr : Option Errno
  pullErr : Option Errno
  createErr : Option Errno
  createOut : String
  installErr : Option Errno
  startErr : Option Errno
deriving DecidableEq

/-- Modelled from the spec: each command step wraps exactly one remote
operation whose result the oracle supplies; steps with an output slot
write it on success. `lambdaSkipFormat` is the embedded `skipFormat`
lambda; the fstab-edit composite appears to the outer task only as a
single pass/fail outcome (spec §3), here `editErr`. -/
def execTaskStep (o : TaskOracle) : TaskStep → TaskEnv → TaskEnv × Option Errno
  | .listContainers _ _ _ _, env =>
      match o.listContainersErr with
      | some e => (env, some e)
      | none => ({ env with oldContainerId := o.listContainersOut }, none)
  | .lambdaSkipFormat, env => (env, skipFormat env.oldContainerId)
  | .blockId _ _ _, env =>
      match o.blockIdErr with
      | some e => (env, some e)
      | none => ({ env with oldUUID := o.blockIdOut }, none)
  | .umountFilesystem _ _ _, env => (env, o.umountErr)
  | .createDirectory _, env => (env, o.mkdirErr)
  | .createFilesystem _, env => (env, o.mkfsErr)
  | .mountFilesystem _ _, env => (env, o.mountErr)
  | .editFSTab _ _ _, env => (env, o.editErr)
  | .pullImage _, env => (env, o.pullErr)
  | .createContainer _ _ _ _ _ _ _, env =>
      match o.createErr with
      | some e => (env, some e)
      | none => ({ env with containerId := o.createOut }, none)
  | .installFile _, env => (env, o.installErr)
  | .startContainer, env => (env, o.startErr)

/-- Modelled from the spec: `Task.Execute` "runs every Step in order,
short-circuiting on the first non-continue outcome"; the sentinel
`ERR_SKIP_TASK` terminates the run as a successful no-op, any other error
terminates it as a failure. Also returns the list of steps invoked. -/
def TaskExecute (o : TaskOracle) :
    List TaskStep → TaskEnv → TaskEnv × Outcome × List TaskStep
  | [], env => (env, Outcome.success, [])
  | a :: rest, env =>
      let r := execTaskStep o a env
      match r.2 with
      | some e =>
          if e = ERR_SKIP_TASK then (r.1, Outcome.skipped, [a])
          else (r.1, Outcome.failed e, [a])
      | none =>
          let rr := TaskExecute o rest r.1
          (rr.1, rr.2.1, a :: rr.2.2)

/-- The constructor kind of a task step. -/
inductive StepKind
  | listContainers
  | lambdaSkipFormat
  | blockId
  | umountFilesystem
  | createDirectory
  | createFilesystem
  | mountFilesystem
  | editFSTab
  | pullImage
  | createContainer
  | installFile
  | startContainer
deriving DecidableEq

def TaskStep.kind : TaskStep → StepKind
  | .listContainers _ _ _ _ => StepKind.listContainers
  | .lambdaSkipFormat => StepKind.lambdaSkipFormat
  | .blockId _ _ _ => StepKind.blockId
  | .umountFilesystem _ _ _ => StepKind.umountFilesystem
  | .createDirectory _ => StepKind.createDirectory
  | .createFilesystem _ => StepKind.createFilesystem
  | .mountFilesystem _ _ => StepKind.mountFilesystem
  | .editFSTab _ _ _ => StepKind.editFSTab
  | .pullImage _ => StepKind.pullImage
  | .createContainer _ _ _ _ _ _ _ => StepKind.createContainer
  | .installFile _ => StepKind.installFile
  | .startContainer => StepKind.startContainer

/-! ### The target-registration script (`scripts.TARGET`) -/

/-- The exact output string the script tolerates from a failed
volume-create. -/
def CREATEFILE_ERR101 : String := "CreateFile fail with errCode: 101"

/-- Embedding of the script's create phase: when `CREATE_FLAG` is
`"true"` and `curve_ops_tool create` exits non-zero, the script exits
with code 1 unless the command's output is exactly
`CreateFile fail with errCode: 101`; the result is `some code` when the
script exits early and `none` when it continues. -/
def targetCreatePhase (createFlag : String) (createExit : Nat)
    (createOutput : String) : Option Nat :=
  if createFlag == "true" then
    if createExit != 0 then
      if createOutput != CREATEFILE_ERR101 then some 1 else none
    else none
  else none

/-- Embedding of the script's tid-scan loop `for ((i=1;;i++))`: starting
at `i`, return the first tid for which `tgtadm --op show` fails (i.e.
that is not in the bound list); the fuel argument makes the recursion
structural and is chosen large enough to cover the finitely many bound
tids. -/
def firstFreeFrom : Nat → Nat → List Nat → Nat
  | 0, i, _ => i
  | fuel + 1, i, bound => if i ∈ bound then firstFreeFrom fuel (i + 1) bound else i

/-- The tid the script selects: the first positive integer no existing
target is bound to. -/
def firstFreeTid (bound : List Nat) : Nat :=
  firstFreeFrom (bound.length + 1) 1 bound

/-- The whole script up to tid selection: exit early from the create
phase, or continue and select the first free tid. -/
def targetScript (createFlag : String) (createExit : Nat)
    (createOutput : String) (bound : List Nat) : Except Nat Nat :=
  match targetCreatePhase createFlag createExit createOutput with
  | some code => .error code
  | none => .ok (firstFreeTid bound)

/-! ### Helper lemmas -/

/-- The sub-step loop either runs every sub-step and returns `none`, or
stops at the first failing sub-step: the invoked steps are exactly the
successful ones followed by the failing one, and the returned error is
that step's error unchanged. -/
theorem runEditSteps_spec (s : step2EditFSTab) (o : RemoteOracle) :
    ∀ (L : List EditStep) (st : EditState),
      ((runEditSteps s o L st).2.1 = none ∧ (runEditSteps s o L st).2.2 = L)
      ∨ ∃ pre a rest stM e,
          L = pre ++ a :: rest ∧
          runEditSteps s o pre st = (stM, none, pre) ∧
          (execEditStep s o a stM).2 = some e ∧
          runEditSteps s o L st =
            ((execEditStep s o a stM).1, some e, pre ++ [a]) := by
  intro L
  induction L with
  | nil => intro st; exact Or.inl ⟨rfl, rfl⟩
  | cons a rest ih =>
      intro st
      cases hr : (execEditStep s o a st).2 with
      | some e =>
          refine Or.inr ⟨[], a, rest, st, e, rfl, rfl, hr, ?_⟩
          simp only [runEditSteps, hr, List.nil_append]
      | none =>
          rcases ih (execEditStep s o a st).1 with ⟨h1, h2⟩ |
            ⟨pre, b, rest2, stM, e, hL, hpre, hexec, hrun⟩
          · left
            constructor
            · simp only [runEditSteps, hr]
              exact h1
            · simp only [runEditSteps, hr]
              rw [h2]
          · right
            refine ⟨a :: pre, b, rest2, stM, e, ?_, ?_, hexec, ?_⟩
            · rw [hL, List.cons_append]
            · simp only [runEditSteps, hr, hpre]
            · simp only [runEditSteps, hr, hrun, List.cons_append]

/-- With the `success` flag false — its only possible value, since no
sub-step ever writes it — `checkDeviceUUID` always returns an error:
the not-a-block-device kind when the probed string contains the marker,
the get-uuid-failed kind otherwise. -/
theorem checkDeviceUUID_false (h d u : String) :
    checkDeviceUUID h d false u =
      some (if strContains u SIGNATURE_NOT_A_BLOCK_DEVICE then
              ERR_NOT_A_BLOCK_DEVICE.F ("host=" ++ h ++ " device=" ++ d)
            else ERR_GET_DEVICE_UUID_FAILED.F
              ("host=" ++ h ++ " device=" ++ d ++ " uuid=" ++ u)) := by
  cases hc : strContains u SIGNATURE_NOT_A_BLOCK_DEVICE <;>
    simp [checkDeviceUUID, hc]

/-- When the backup copy and the UUID probe commands themselves succeed,
the sub-pipeline always stops at the validation lambda with an error:
the final state keeps the fstab unchanged, holds the probed string in
the uuid slot, and exactly the first three sub-steps were invoked. -/
theorem execute_stops_at_check (s : step2EditFSTab) (o : RemoteOracle)
    (now : String) (files : HostFiles) (uuid0 : String)
    (h1 : o.copyFileErr = none) (h2 : o.blockIdErr = none) :
    ∃ bks,
      step2EditFSTab.execute s o now files uuid0 =
        ({ files := { fstab := files.fstab, backups := bks },
           uuid := o.blockIdOut, success := false,
           express2del := "", express2add := "" },
         some (if strContains o.blockIdOut SIGNATURE_NOT_A_BLOCK_DEVICE then
                 ERR_NOT_A_BLOCK_DEVICE.F
                   ("host=" ++ s.host ++ " device=" ++ s.device)
               else ERR_GET_DEVICE_UUID_FAILED.F
                 ("host=" ++ s.host ++ " device=" ++ s.device ++
                   " uuid=" ++ o.blockIdOut)),
         [EditStep.copyFile fstabPath (fstabPath ++ "-" ++ now ++ ".backup") true,
          EditStep.blockId s.device, EditStep.checkUUID]) := by
  cases hb : files.backups.any
      (fun b => b.1 == fstabPath ++ "-" ++ now ++ ".backup") with
  | true =>
      refine ⟨files.backups, ?_⟩
      simp [step2EditFSTab.execute, editSteps, runEditSteps, execEditStep,
        initEditState, h1, h2, hb, checkDeviceUUID_false]
  | false =>
      refine ⟨(fstabPath ++ "-" ++ now ++ ".backup", files.fstab) ::
        files.backups, ?_⟩
      simp [step2EditFSTab.execute, editSteps, runEditSteps, execEditStep,
        initEditState, h1, h2, hb, checkDeviceUUID_false]

/-! ### Concrete fixtures for witnesses and counterexamples -/

def sFix : step2EditFSTab :=
  { host := "node1", device := "/dev/sdb", mountPoint := "/data",
    oldUUID := "", skipAdd := false }

def filesFix : HostFiles := { fstab := [], backups := [] }

/-- Oracle whose probe prints a plain string without the marker. -/
def oFixPlain : RemoteOracle :=
  { copyFileErr := none, blockIdErr := none, blockIdOut := "abc",
    sedDelErr := none, sedAddErr := none }

/-- Oracle whose probe prints a not-a-block-device message. -/
def oFixMarker : RemoteOracle :=
  { copyFileErr := none, blockIdErr := none,
    blockIdOut := "not a block device",
    sedDelErr := none, sedAddErr := none }

/-- Oracle whose probe prints a malformed string without the marker. -/
def oFixGarbage : RemoteOracle :=
  { copyFileErr := none, blockIdErr := none, blockIdOut := "garbage",
    sedDelErr := none, sedAddErr := none }

/-- Oracle whose probe prints a canonically shaped UUID. -/
def oFixUUID : RemoteOracle :=
  { copyFileErr := none, blockIdErr := none,
    blockIdOut := "82511eb8-e4e3-4a50-a736-d584fbf533fa",
    sedDelErr := none, sedAddErr := none }

/-! ### C1 -/

/-- C1: `step2EditFSTab.Execute` runs the sub-pipeline inside one Shared
Store transaction: the lock is acquired and then released whether the
sub-pipeline succeeds or fails, the composite's error is the
sub-pipeline's error unchanged, the sub-pipeline returns `none` exactly
when every sub-step ran and succeeded, and on failure the invoked
sub-steps are the successful ones followed by the first failing one,
whose error is returned unchanged. -/
theorem c1_composite_tx (s : step2EditFSTab) (o : RemoteOracle)
    (now : String) (files : HostFiles) (uuid0 : String) :
    (step2EditFSTab.Execute s o now files uuid0).2 =
      [LockEvent.acquire, LockEvent.release] ∧
    (step2EditFSTab.Execute s o now files uuid0).1.2 =
      (step2EditFSTab.execute s o now files uuid0).2.1 ∧
    (step2EditFSTab.Execute s o now files uuid0).1.1.2 =
      (step2EditFSTab.execute s o now files uuid0).2.2 ∧
    ((step2EditFSTab.execute s o now files uuid0).2.1 = none →
      (step2EditFSTab.execute s o now files uuid0).2.2 = editSteps s now) ∧
    (∀ e, (step2EditFSTab.execute s o now files uuid0).2.1 = some e →
      ∃ pre a rest stM,
        editSteps s now = pre ++ a :: rest ∧
        (step2EditFSTab.execute s o now files uuid0).2.2 = pre ++ [a] ∧
        runEditSteps s o pre (initEditState files uuid0) = (stM, none, pre) ∧
        execEditStep s o a stM =
          ((step2EditFSTab.execute s o now files uuid0).1, some e)) := by
  refine ⟨rfl, rfl, rfl, ?_, ?_⟩
  · intro h
    rcases runEditSteps_spec s o (editSteps s now) (initEditState files uuid0)
      with ⟨h1, h2⟩ | ⟨pre, a, rest, stM, e, hL, hpre, hexec, hrun⟩
    · exact h2
    · exfalso
      have hh : (step2EditFSTab.execute s o now files uuid0).2.1 = some e := by
        unfold step2EditFSTab.execute
        rw [hrun]
      rw [h] at hh
      exact Option.noConfusion hh
  · intro e he
    rcases runEditSteps_spec s o (editSteps s now) (initEditState files uuid0)
      with ⟨h1, h2⟩ | ⟨pre, a, rest, stM, e2, hL, hpre, hexec, hrun⟩
    · exfalso
      have hh : (step2EditFSTab.execute s o now files uuid0).2.1 = none := h1
      rw [he] at hh
      exact Option.noConfusion hh
    · have hsame : e2 = e := by
        have hh : (step2EditFSTab.execute s o now files uuid0).2.1 = some e2 := by
          unfold step2EditFSTab.execute
          rw [hrun]
        rw [he] at hh
        exact (Option.some.inj hh).symm
      subst hsame
      refine ⟨pre, a, rest, stM, hL, ?_, hpre, ?_⟩
      · unfold step2EditFSTab.execute
        rw [hrun]
      · unfold step2EditFSTab.execute
        rw [hrun, ← hexec]

/-- Witness for C1 at a concrete input. -/
theorem c1_composite_tx_witness :
    (step2EditFSTab.Execute sFix oFixPlain "2024-01-01" filesFix "").2 =
      [LockEvent.acquire, LockEvent.release] :=
  (c1_composite_tx sFix oFixPlain "2024-01-01" filesFix "").1

/-! ### C5 -/

/-- C5: the `success` flag is never written by any sub-step, so whenever
the backup and probe commands themselves succeed, `checkDeviceUUID`
takes its probe-failed branch and returns an error — the
not-a-block-device kind if the probed string contains the marker, the
get-uuid-failed kind otherwise — and the invoked sub-steps are exactly
the backup, the probe and the validation lambda: the expression and Sed
sub-steps are never reached and the fstab is never modified. -/
theorem c5_success_never_written (s : step2EditFSTab) (o : RemoteOracle)
    (now : String) (files : HostFiles) (uuid0 : String)
    (h1 : o.copyFileErr = none) (h2 : o.blockIdErr = none) :
    (step2EditFSTab.execute s o now files uuid0).1.files.fstab = files.fstab ∧
    (step2EditFSTab.execute s o now files uuid0).2.2 =
      [EditStep.copyFile fstabPath (fstabPath ++ "-" ++ now ++ ".backup") true,
       EditStep.blockId s.device, EditStep.checkUUID] ∧
    (step2EditFSTab.execute s o now files uuid0).2.1 =
      some (if strContains o.blockIdOut SIGNATURE_NOT_A_BLOCK_DEVICE then
              ERR_NOT_A_BLOCK_DEVICE.F
                ("host=" ++ s.host ++ " device=" ++ s.device)
            else ERR_GET_DEVICE_UUID_FAILED.F
              ("host=" ++ s.host ++ " device=" ++ s.device ++
                " uuid=" ++ o.blockIdOut)) := by
  rcases execute_stops_at_check s o now files uuid0 h1 h2 with ⟨bks, hE⟩
  rw [hE]
  exact ⟨rfl, rfl, rfl⟩

/-- Witness for C5 at a concrete input. -/
theorem c5_success_never_written_witness :
    (step2EditFSTab.execute sFix oFixPlain "2024-01-01" filesFix "").2.2 =
      [EditStep.copyFile fstabPath (fstabPath ++ "-" ++ "2024-01-01" ++ ".backup") true,
       EditStep.blockId sFix.device, EditStep.checkUUID] :=
  (c5_success_never_written sFix oFixPlain "2024-01-01" filesFix "" rfl rfl).2.1

/-! ### C3 -/

/-- C3: when the probe's result marks the device as not a block device
(and the backup and probe commands themselves succeeded), the composite
fails with the not-a-block-device kind carrying host and device, neither
Sed sub-step runs, and the fstab is never modified. -/
theorem c3_not_a_block_device (s : step2EditFSTab) (o : RemoteOracle)
    (now : String) (files : HostFiles) (uuid0 : String)
    (h1 : o.copyFileErr = none) (h2 : o.blockIdErr = none)
    (hm : strContains o.blockIdOut SIGNATURE_NOT_A_BLOCK_DEVICE = true) :
    (step2EditFSTab.execute s o now files uuid0).2.1 =
      some (ERR_NOT_A_BLOCK_DEVICE.F
        ("host=" ++ s.host ++ " device=" ++ s.device)) ∧
    EditStep.sedDel ∉ (step2EditFSTab.execute s o now files uuid0).2.2 ∧
    EditStep.sedAdd ∉ (step2EditFSTab.execute s o now files uuid0).2.2 ∧
    (step2EditFSTab.execute s o now files uuid0).1.files.fstab =
      files.fstab := by
  rcases execute_stops_at_check s o now files uuid0 h1 h2 with ⟨bks, hE⟩
  rw [hE]
  refine ⟨?_, ?_, ?_, rfl⟩
  · rw [hm]
    simp
  · intro hmem
    simp at hmem
  · intro hmem
    simp at hmem

/-- Witness for C3 at a concrete input. -/
theorem c3_not_a_block_device_witness :
    (step2EditFSTab.execute sFix oFixMarker "2024-01-01" filesFix "").2.1 =
      some (ERR_NOT_A_BLOCK_DEVICE.F
        ("host=" ++ sFix.host ++ " device=" ++ sFix.device)) :=
  (c3_not_a_block_device sFix oFixMarker "2024-01-01" filesFix "" rfl rfl
    (by decide)).1

/-! ### C4 -/

/-- C4 counterexample: the probed string "not a block device" does not
match the canonical pattern, yet the composite fails with the
not-a-block-device kind (not the metadata-invalid kind), and the dated
backup of the fstab has been made, contradicting "fails with the
device-metadata-invalid error kind and no backup ... occurs". -/
theorem c4_counterexample :
    matchDeviceUUID "not a block device" = false ∧
    (step2EditFSTab.execute sFix oFixMarker "2024-01-02" filesFix "").2.1 =
      some (ERR_NOT_A_BLOCK_DEVICE.F "host=node1 device=/dev/sdb") ∧
    ERR_NOT_A_BLOCK_DEVICE.kind ≠ ERR_GET_DEVICE_UUID_FAILED.kind ∧
    (step2EditFSTab.execute sFix oFixMarker "2024-01-02" filesFix ""
      ).1.files.backups ≠ [] := by
  decide

/-- C4 (amended): for every probed UUID string that does not match the
canonical 8-4-4-4-12 pattern and does not contain the
"not a block device" marker, the composite fails with the
metadata-invalid kind (`ERR_GET_DEVICE_UUID_FAILED`) and the fstab is
never edited; the dated backup sub-step, which precedes validation, has
however already run. -/
theorem c4_metadata_invalid (s : step2EditFSTab) (o : RemoteOracle)
    (now : String) (files : HostFiles) (uuid0 : String)
    (h1 : o.copyFileErr = none) (h2 : o.blockIdErr = none)
    (hm : strContains o.blockIdOut SIGNATURE_NOT_A_BLOCK_DEVICE = false)
    (_hp : matchDeviceUUID o.blockIdOut = false) :
    (step2EditFSTab.execute s o now files uuid0).2.1 =
      some (ERR_GET_DEVICE_UUID_FAILED.F
        ("host=" ++ s.host ++ " device=" ++ s.device ++
          " uuid=" ++ o.blockIdOut)) ∧
    (step2EditFSTab.execute s o now files uuid0).1.files.fstab =
      files.fstab ∧
    EditStep.sedDel ∉ (step2EditFSTab.execute s o now files uuid0).2.2 ∧
    EditStep.sedAdd ∉ (step2EditFSTab.execute s o now files uuid0).2.2 := by
  rcases execute_stops_at_check s o now files uuid0 h1 h2 with ⟨bks, hE⟩
  rw [hE]
  refine ⟨?_, rfl, ?_, ?_⟩
  · rw [hm]
    simp
  · intro hmem
    simp at hmem
  · intro hmem
    simp at hmem

/-- Witness for the amended C4 at a concrete input. -/
theorem c4_metadata_invalid_witness :
    (step2EditFSTab.execute sFix oFixGarbage "2024-01-02" filesFix "").2.1 =
      some (ERR_GET_DEVICE_UUID_FAILED.F
        ("host=" ++ sFix.host ++ " device=" ++ sFix.device ++
          " uuid=" ++ oFixGarbage.blockIdOut)) :=
  (c4_metadata_invalid sFix oFixGarbage "2024-01-02" filesFix "" rfl rfl
    (by decide) (by decide)).1

/-! ### C6 -/

/-- C6: the first sub-step of the composite copies the fstab to a
destination suffixed with the current date; with its no-clobber flag set,
an already existing backup for that date is left unchanged, and when no
backup exists the fstab content is stored under the dated path. -/
theorem c6_backup_no_clobber (s : step2EditFSTab) (o : RemoteOracle)
    (now : String) :
    (editSteps s now).head? =
      some (EditStep.copyFile fstabPath
        (fstabPath ++ "-" ++ now ++ ".backup") true) ∧
    (∀ st : EditState, o.copyFileErr = none →
      st.files.backups.any
          (fun b => b.1 == fstabPath ++ "-" ++ now ++ ".backup") = true →
      execEditStep s o
        (EditStep.copyFile fstabPath (fstabPath ++ "-" ++ now ++ ".backup")
          true) st = (st, none)) ∧
    (∀ st : EditState, o.copyFileErr = none →
      st.files.backups.any
          (fun b => b.1 == fstabPath ++ "-" ++ now ++ ".backup") = false →
      execEditStep s o
        (EditStep.copyFile fstabPath (fstabPath ++ "-" ++ now ++ ".backup")
          true) st =
        ({ st with files := { st.files with
            backups := (fstabPath ++ "-" ++ now ++ ".backup", st.files.fstab)
              :: st.files.backups } }, none)) := by
  refine ⟨rfl, ?_, ?_⟩
  · intro st hc hb
    simp [execEditStep, hc, hb]
  · intro st hc hb
    simp [execEditStep, hc, hb]

/-- A host state that already holds a backup dated 2024-01-01. -/
def filesWithBackup : HostFiles :=
  { fstab := ["line"], backups := [("/etc/fstab-2024-01-01.backup", [])] }

/-- Witness for C6 at a concrete input with an existing dated backup. -/
theorem c6_backup_no_clobber_witness :
    execEditStep sFix oFixPlain
      (EditStep.copyFile fstabPath
        (fstabPath ++ "-" ++ "2024-01-01" ++ ".backup") true)
      (initEditState filesWithBackup "") =
      (initEditState filesWithBackup "", none) :=
  (c6_backup_no_clobber sFix oFixPlain "2024-01-01").2.1
    (initEditState filesWithBackup "") rfl (by decide)

/-! ### C7 -/

/-- C7: evaluation of the composite at the failing input. The probe
yields a canonically shaped UUID, yet — because no sub-step ever writes
the `success` flag — both of two consecutive runs of the composite fail
with the get-uuid-failed kind and leave the fstab untouched: after
running twice, the fstab holds zero records for the new UUID, not
exactly one as the claim states. -/
theorem c7_bug_eval :
    matchDeviceUUID "82511eb8-e4e3-4a50-a736-d584fbf533fa" = true ∧
    (step2EditFSTab.execute sFix oFixUUID "2024-01-03" filesFix "").2.1 =
      some (ERR_GET_DEVICE_UUID_FAILED.F
        "host=node1 device=/dev/sdb uuid=82511eb8-e4e3-4a50-a736-d584fbf533fa") ∧
    (step2EditFSTab.execute sFix oFixUUID "2024-01-03"
        (step2EditFSTab.execute sFix oFixUUID "2024-01-03" filesFix ""
          ).1.files
        (step2EditFSTab.execute sFix oFixUUID "2024-01-03" filesFix ""
          ).1.uuid).2.1 =
      some (ERR_GET_DEVICE_UUID_FAILED.F
        "host=node1 device=/dev/sdb uuid=82511eb8-e4e3-4a50-a736-d584fbf533fa") ∧
    ((step2EditFSTab.execute sFix oFixUUID "2024-01-03"
        (step2EditFSTab.execute sFix oFixUUID "2024-01-03" filesFix ""
          ).1.files
        (step2EditFSTab.execute sFix oFixUUID "2024-01-03" filesFix ""
          ).1.uuid).1.files.fstab.filter
      (fun l => strContains l
        "UUID=82511eb8-e4e3-4a50-a736-d584fbf533fa")).length = 0 := by
  decide

/-! ### The builder's task, spelled out -/

/-- The step list `NewFormatChunkfilePoolTask` assembles, with every
parameter spelled out. -/
def formatTaskSteps (md5 : String → String) (layout : Layout)
    (fc : FormatConfig) : List TaskStep :=
  [TaskStep.listContainers true "'\x7b\x7b.ID\x7d\x7d'" true
     ("name=" ++ device2ContainerName md5 fc.GetDevice),
   TaskStep.lambdaSkipFormat,
   TaskStep.blockId fc.GetDevice "value" "UUID",
   TaskStep.umountFilesystem [fc.GetDevice] true true,
   TaskStep.createDirectory [fc.GetMountPoint],
   TaskStep.createFilesystem fc.GetDevice,
   TaskStep.mountFilesystem fc.GetDevice fc.GetMountPoint,
   TaskStep.editFSTab fc.GetHost fc.GetDevice fc.GetMountPoint,
   TaskStep.pullImage fc.GetContainerImage,
   TaskStep.createContainer fc.GetContainerImage
     (layout.ToolsBinDir ++ "/format.sh" ++ " " ++ layout.FormatBinaryPath ++
       " " ++ toString fc.GetFormatPercent ++ " " ++
       toString DEFAULT_CHUNKFILE_SIZE ++ " " ++ layout.ChunkfilePoolDir ++
       " " ++ layout.ChunkfilePoolMetaPath)
     "/bin/bash" (device2ContainerName md5 fc.GetDevice) true
     fc.GetMountPoint layout.ChunkfilePoolRootDir,
   TaskStep.installFile (layout.ToolsBinDir ++ "/format.sh"),
   TaskStep.startContainer]

/-- When the host lookup succeeds, the builder returns exactly the task
with the spelled-out step list. -/
theorem newFormatTask_ok (hosts : String → Except Errno HostConfig)
    (md5 : String → String) (layout : Layout) (fc : FormatConfig)
    (hc : HostConfig) (hh : hosts fc.GetHost = .ok hc) :
    NewFormatChunkfilePoolTask hosts md5 layout fc = .ok
      { name := "Start Format Chunkfile Pool"
        subname := "host=" ++ fc.GetHost ++ " device=" ++ fc.GetDevice ++
          " mountPoint=" ++ fc.GetMountPoint ++ " usage=" ++
          toString fc.GetFormatPercent ++ "%"
        sshConfig := hc.sshConfig
        steps := formatTaskSteps md5 layout fc } := by
  unfold NewFormatChunkfilePoolTask
  rw [hh]
  rfl

/-- When the host lookup fails, the builder forwards the lookup error. -/
theorem newFormatTask_error (hosts : String → Except Errno HostConfig)
    (md5 : String → String) (layout : Layout) (fc : FormatConfig)
    (e : Errno) (hh : hosts fc.GetHost = .error e) :
    NewFormatChunkfilePoolTask hosts md5 layout fc = .error e := by
  unfold NewFormatChunkfilePoolTask
  rw [hh]

/-! ### C2 -/

/-- Running the engine on any step list opening with a list-containers
step followed by the skip lambda ends in the skip outcome when the
fetched container id is non-empty, invoking no later step. -/
theorem taskExecute_skips (o : TaskOracle) (env : TaskEnv)
    (p1 : Bool) (p2 : String) (p3 : Bool) (p4 : String)
    (rest : List TaskStep)
    (h1 : o.listContainersErr = none)
    (h2 : 0 < o.listContainersOut.length) :
    TaskExecute o
        (TaskStep.listContainers p1 p2 p3 p4 ::
          TaskStep.lambdaSkipFormat :: rest) env =
      ({ env with oldContainerId := o.listContainersOut }, Outcome.skipped,
        [TaskStep.listContainers p1 p2 p3 p4, TaskStep.lambdaSkipFormat]) := by
  simp [TaskExecute, execTaskStep, h1, skipFormat, h2]

/-- C2: when the list-containers step of the format task stores a
non-empty container id, the run ends in the skip outcome
(`ERR_SKIP_TASK` from the skip lambda): only the list-containers step
and the skip lambda were invoked — none of the UUID-capture, unmount,
mkdir, mkfs, mount, fstab-edit, pull, create, install or start steps
ran — and the environment is untouched except for the recorded
container id. -/
theorem c2_skip_when_container_exists
    (hosts : String → Except Errno HostConfig) (md5 : String → String)
    (layout : Layout) (fc : FormatConfig) (t : Task) (o : TaskOracle)
    (env : TaskEnv)
    (ht : NewFormatChunkfilePoolTask hosts md5 layout fc = .ok t)
    (h1 : o.listContainersErr = none)
    (h2 : 0 < o.listContainersOut.length) :
    (TaskExecute o t.steps env).2.1 = Outcome.skipped ∧
    (TaskExecute o t.steps env).2.2 = t.steps.take 2 ∧
    (TaskExecute o t.steps env).2.2.map TaskStep.kind =
      [StepKind.listContainers, StepKind.lambdaSkipFormat] ∧
    (TaskExecute o t.steps env).1 =
      { env with oldContainerId := o.listContainersOut } := by
  cases hh : hosts fc.GetHost with
  | error e =>
      rw [newFormatTask_error hosts md5 layout fc e hh] at ht
      exact Except.noConfusion ht
  | ok hc =>
      rw [newFormatTask_ok hosts md5 layout fc hc hh] at ht
      have hsteps : t.steps = formatTaskSteps md5 layout fc :=
        (congrArg Task.steps (Except.ok.inj ht)).symm
      rw [hsteps, formatTaskSteps, taskExecute_skips o env _ _ _ _ _ h1 h2]
      exact ⟨rfl, rfl, rfl, rfl⟩

/-! ### C8 -/

/-- C8: whenever the builder returns a task, its steps are in exactly the
fixed order list-containers, skip check, UUID capture, unmount, mkdir,
mkfs, mount, fstab-edit composite, pull, create, install, start; in
particular the container-create step (index 9) precedes the install
(index 10) and start (index 11) steps, and the start step is last. -/
theorem c8_fixed_step_order (hosts : String → Except Errno HostConfig)
    (md5 : String → String) (layout : Layout) (fc : FormatConfig) (t : Task)
    (ht : NewFormatChunkfilePoolTask hosts md5 layout fc = .ok t) :
    t.steps.map TaskStep.kind =
      [StepKind.listContainers, StepKind.lambdaSkipFormat, StepKind.blockId,
       StepKind.umountFilesystem, StepKind.createDirectory,
       StepKind.createFilesystem, StepKind.mountFilesystem,
       StepKind.editFSTab, StepKind.pullImage, StepKind.createContainer,
       StepKind.installFile, StepKind.startContainer] ∧
    (t.steps.map TaskStep.kind).indexOf StepKind.createContainer = 9 ∧
    (t.steps.map TaskStep.kind).indexOf StepKind.installFile = 10 ∧
    (t.steps.map TaskStep.kind).indexOf StepKind.startContainer = 11 ∧
    t.steps.getLast?.map TaskStep.kind = some StepKind.startContainer := by
  cases hh : hosts fc.GetHost with
  | error e =>
      rw [newFormatTask_error hosts md5 layout fc e hh] at ht
      exact Except.noConfusion ht
  | ok hc =>
      rw [newFormatTask_ok hosts md5 layout fc hc hh] at ht
      have hsteps : t.steps = formatTaskSteps md5 layout fc :=
        (congrArg Task.steps (Except.ok.inj ht)).symm
      rw [hsteps]
      have hmap : (formatTaskSteps md5 layout fc).map TaskStep.kind =
          [StepKind.listContainers, StepKind.lambdaSkipFormat, StepKind.blockId,
           StepKind.umountFilesystem, StepKind.createDirectory,
           StepKind.createFilesystem, StepKind.mountFilesystem,
           StepKind.editFSTab, StepKind.pullImage, StepKind.createContainer,
           StepKind.installFile, StepKind.startContainer] := rfl
      rw [hmap]
      refine ⟨rfl, ?_, ?_, ?_, rfl⟩ <;> decide

/-! ### C10 -/

/-- C10: the builder fails exactly when the host lookup fails, forwarding
the lookup's error unchanged; in every other case it returns a task of
exactly 12 steps. The construction itself is a pure function of the
lookup result and the configuration: it issues no remote operation. -/
theorem c10_builder_total (hosts : String → Except Errno HostConfig)
    (md5 : String → String) (layout : Layout) (fc : FormatConfig) :
    (∀ e, hosts fc.GetHost = .error e →
      NewFormatChunkfilePoolTask hosts md5 layout fc = .error e) ∧
    (∀ hc t, hosts fc.GetHost = .ok hc →
      NewFormatChunkfilePoolTask hosts md5 layout fc = .ok t →
      t.steps.length = 12) ∧
    ((∃ e, NewFormatChunkfilePoolTask hosts md5 layout fc = .error e) ↔
      (∃ e, hosts fc.GetHost = .error e)) := by
  refine ⟨?_, ?_, ?_⟩
  · intro e he
    exact newFormatTask_error hosts md5 layout fc e he
  · intro hc t hh ht
    rw [newFormatTask_ok hosts md5 layout fc hc hh] at ht
    have hsteps : t.steps = formatTaskSteps md5 layout fc :=
      (congrArg Task.steps (Except.ok.inj ht)).symm
    rw [hsteps, formatTaskSteps]
    rfl
  · constructor
    · rintro ⟨e, he⟩
      cases hh : hosts fc.GetHost with
      | error e2 => exact ⟨e2, rfl⟩
      | ok hc =>
          rw [newFormatTask_ok hosts md5 layout fc hc hh] at he
          exact Except.noConfusion he
    · rintro ⟨e, he⟩
      exact ⟨e, newFormatTask_error hosts md5 layout fc e he⟩

/-! ### Fixtures and witnesses for the outer-task claims -/

def hostsFix : String → Except Errno HostConfig :=
  fun _ => Except.ok { sshConfig := "ssh node1" }

def hostsFixBad : String → Except Errno HostConfig :=
  fun _ => Except.error { kind := "ERR_HOST_NOT_FOUND", msg := "host not found" }

def md5Fix : String → String := fun s => s

def layoutFix : Layout :=
  { ChunkfilePoolRootDir := "/curvebs/chunkfilepool",
    ChunkfilePoolDir := "/curvebs/chunkfilepool/pool",
    ChunkfilePoolMetaPath := "/curvebs/chunkfilepool/meta",
    ToolsBinDir := "/curvebs/tools/sbin",
    FormatBinaryPath := "/curvebs/tools/sbin/curve_format" }

def fcFix : FormatConfig :=
  { host := "node1", device := "/dev/sdb", mountPoint := "/data",
    formatPercent := 90, containerImage := "opencurve/curvebs" }

/-- The task the builder assembles for the concrete fixture. -/
def taskFix : Task :=
  { name := "Start Format Chunkfile Pool"
    subname := "host=" ++ fcFix.GetHost ++ " device=" ++ fcFix.GetDevice ++
      " mountPoint=" ++ fcFix.GetMountPoint ++ " usage=" ++
      toString fcFix.GetFormatPercent ++ "%"
    sshConfig := "ssh node1"
    steps := formatTaskSteps md5Fix layoutFix fcFix }

/-- A concrete oracle in which a work container already exists. -/
def oTaskFix : TaskOracle :=
  { listContainersErr := none, listContainersOut := "f6180ed2",
    blockIdErr := none, blockIdOut := "", umountErr := none,
    mkdirErr := none, mkfsErr := none, mountErr := none, editErr := none,
    pullErr := none, createErr := none, createOut := "", installErr := none,
    startErr := none }

def envFix : TaskEnv := { oldContainerId := "", oldUUID := "", containerId := "" }

/-- Witness for C2 at a concrete input. -/
theorem c2_skip_when_container_exists_witness :
    (TaskExecute oTaskFix taskFix.steps envFix).2.1 = Outcome.skipped :=
  (c2_skip_when_container_exists hostsFix md5Fix layoutFix fcFix taskFix
    oTaskFix envFix rfl rfl (by decide)).1

/-- Witness for C8 at a concrete input. -/
theorem c8_fixed_step_order_witness :
    taskFix.steps.map TaskStep.kind =
      [StepKind.listContainers, StepKind.lambdaSkipFormat, StepKind.blockId,
       StepKind.umountFilesystem, StepKind.createDirectory,
       StepKind.createFilesystem, StepKind.mountFilesystem,
       StepKind.editFSTab, StepKind.pullImage, StepKind.createContainer,
       StepKind.installFile, StepKind.startContainer] :=
  (c8_fixed_step_order hostsFix md5Fix layoutFix fcFix taskFix rfl).1

/-- Witness for C10 at a concrete input whose host lookup fails. -/
theorem c10_builder_total_witness :
    NewFormatChunkfilePoolTask hostsFixBad md5Fix layoutFix fcFix =
      .error { kind := "ERR_HOST_NOT_FOUND", msg := "host not found" } :=
  (c10_builder_total hostsFixBad md5Fix layoutFix fcFix).1
    { kind := "ERR_HOST_NOT_FOUND", msg := "host not found" } rfl

/-! ### C9 -/

/-- How many bound tids are at least `i`; the measure that bounds the
tid-scan loop. -/
def countGe (i : Nat) (l : List Nat) : Nat :=
  l.countP fun x => decide (i ≤ x)

theorem countGe_succ_le (i : Nat) (l : List Nat) :
    countGe (i + 1) l ≤ countGe i l := by
  induction l with
  | nil => exact Nat.le_refl 0
  | cons a l ih =>
      simp only [countGe, List.countP_cons] at ih ⊢
      have hif : (if (decide (i + 1 ≤ a)) = true then 1 else 0) ≤
          (if (decide (i ≤ a)) = true then 1 else 0) := by
        by_cases h : i + 1 ≤ a
        · simp [h, Nat.le_of_succ_le h]
        · simp [h]
      omega

theorem countGe_succ_lt (i : Nat) (l : List Nat) (h : i ∈ l) :
    countGe (i + 1) l < countGe i l := by
  induction l with
  | nil => cases h
  | cons a l ih =>
      rcases List.mem_cons.mp h with rfl | hmem
      · have hle := countGe_succ_le i l
        simp only [countGe, List.countP_cons] at hle ⊢
        have h1 : (decide (i + 1 ≤ i)) = false := by simp
        have h2 : (decide (i ≤ i)) = true := by simp
        rw [h1, h2]
        simp only [Bool.false_eq_true, if_false, if_true]
        omega
      · have hlt := ih hmem
        simp only [countGe, List.countP_cons] at hlt ⊢
        have hif : (if (decide (i + 1 ≤ a)) = true then 1 else 0) ≤
            (if (decide (i ≤ a)) = true then 1 else 0) := by
          by_cases hh : i + 1 ≤ a
          · simp [hh, Nat.le_of_succ_le hh]
          · simp [hh]
        omega

theorem firstFreeFrom_ge : ∀ (fuel i : Nat) (l : List Nat),
    i ≤ firstFreeFrom fuel i l := by
  intro fuel
  induction fuel with
  | zero => intro i l; exact Nat.le_refl i
  | succ f ih =>
      intro i l
      by_cases h : i ∈ l
      · simp only [firstFreeFrom]
        rw [if_pos h]
        exact Nat.le_trans (Nat.le_succ i) (ih (i + 1) l)
      · simp only [firstFreeFrom]
        rw [if_neg h]

theorem firstFreeFrom_not_mem : ∀ (fuel i : Nat) (l : List Nat),
    countGe i l < fuel → firstFreeFrom fuel i l ∉ l := by
  intro fuel
  induction fuel with
  | zero => intro i l h; exact absurd h (Nat.not_lt_zero _)
  | succ f ih =>
      intro i l h
      by_cases hm : i ∈ l
      · simp only [firstFreeFrom]
        rw [if_pos hm]
        apply ih
        have h1 := countGe_succ_lt i l hm
        omega
      · simp only [firstFreeFrom]
        rw [if_neg hm]
        exact hm

theorem firstFreeFrom_min : ∀ (fuel i : Nat) (l : List Nat) (j : Nat),
    i ≤ j → j < firstFreeFrom fuel i l → j ∈ l := by
  intro fuel
  induction fuel with
  | zero =>
      intro i l j hij hj
      simp only [firstFreeFrom] at hj
      omega
  | succ f ih =>
      intro i l j hij hj
      by_cases hm : i ∈ l
      · simp only [firstFreeFrom] at hj
        rw [if_pos hm] at hj
        rcases Nat.eq_or_lt_of_le hij with rfl | hlt
        · exact hm
        · exact ih (i + 1) l j hlt hj
      · simp only [firstFreeFrom] at hj
        rw [if_neg hm] at hj
        omega

/-- The tid the scan selects is positive, unbound, and least such. -/
theorem firstFreeTid_spec (bound : List Nat) :
    1 ≤ firstFreeTid bound ∧ firstFreeTid bound ∉ bound ∧
      ∀ j, 1 ≤ j → j < firstFreeTid bound → j ∈ bound := by
  unfold firstFreeTid
  refine ⟨firstFreeFrom_ge _ 1 bound, ?_, ?_⟩
  · apply firstFreeFrom_not_mem
    have h1 : countGe 1 bound ≤ bound.length := List.countP_le_length _
    omega
  · intro j h1 h2
    exact firstFreeFrom_min _ 1 bound j h1 h2

/-- C9: in the target-registration script with `CREATE_FLAG` true, a
volume-create failure is tolerated exactly when the command's output is
the literal `CreateFile fail with errCode: 101` — any other failing
output exits the script with code 1; when the create succeeds or is
tolerated, the selected target id is the smallest positive integer no
existing target is bound to. -/
theorem c9_target_script (createFlag : String) (createExit : Nat)
    (createOutput : String) (bound : List Nat)
    (hflag : createFlag = "true") :
    (createExit ≠ 0 → createOutput ≠ CREATEFILE_ERR101 →
      targetScript createFlag createExit createOutput bound = .error 1) ∧
    (createExit ≠ 0 → createOutput = CREATEFILE_ERR101 →
      targetScript createFlag createExit createOutput bound =
        .ok (firstFreeTid bound)) ∧
    (createExit = 0 →
      targetScript createFlag createExit createOutput bound =
        .ok (firstFreeTid bound)) ∧
    1 ≤ firstFreeTid bound ∧
    firstFreeTid bound ∉ bound ∧
    (∀ j, 1 ≤ j → j < firstFreeTid bound → j ∈ bound) := by
  subst hflag
  refine ⟨?_, ?_, ?_, (firstFreeTid_spec bound).1,
    (firstFreeTid_spec bound).2.1, (firstFreeTid_spec bound).2.2⟩
  · intro h1 h2
    simp [targetScript, targetCreatePhase, h1, h2]
  · intro h1 h2
    simp [targetScript, targetCreatePhase, h1, h2]
  · intro h1
    simp [targetScript, targetCreatePhase, h1]

/-- Witness for C9 at a concrete input: a failed create with the
tolerated output, tids 1 and 2 already bound. -/
theorem c9_target_script_witness :
    targetScript "true" 1 CREATEFILE_ERR101 [1, 2] =
      .ok (firstFreeTid [1, 2]) ∧
    firstFreeTid [1, 2] ∉ [1, 2] ∧
    firstFreeTid [1, 2] = 3 :=
  ⟨(c9_target_script "true" 1 CREATEFILE_ERR101 [1, 2] rfl).2.1
      (by decide) rfl,
   (c9_target_script "true" 1 CREATEFILE_ERR101 [1, 2] rfl).2.2.2.2.1,
   by decide⟩

end Curveadm
